import Mathlib

/-!
Verification development for the network-security simulator (`src/App.tsx`).

The simulator is a React component; its core is (a) a metrics engine that,
while the simulation runs, computes one load sample per second together with
a server-load percentage and a legitimate/malicious traffic split, keeping a
bounded history of samples, and (b) a particle animator whose particles are
re-coloured and re-sped at each reset according to the current protection
level.

JavaScript numbers are embedded as rationals (`ℚ`); every arithmetic
expression appearing in the source is exact at these magnitudes, so no
floating-point rounding is modelled.  Each call of `Math.random()` is
embedded as an explicit parameter `r : ℚ` with `0 ≤ r` and `r < 1`.
React state updates are embedded as explicit state-passing on `SimState`.
-/

namespace Simulateur

/-- Server resource configuration (`interface ServerConfig`, src/App.tsx:27). -/
structure ServerConfig where
  cpu : ℚ
  ram : ℚ
  bandwidth : ℚ
  storage : ℚ
  deriving DecidableEq, Repr

/-- The five independent security toggles (`interface SecurityMeasures`,
src/App.tsx:34). -/
structure SecurityMeasures where
  fail2ban : Bool
  pfsense : Bool
  cloudflare : Bool
  loadBalancer : Bool
  waf : Bool
  deriving DecidableEq, Repr

/-- One sample of the bounded metric history (`interface MetricPoint`,
src/App.tsx:42). -/
structure MetricPoint where
  timestamp : ℚ
  value : ℚ
  deriving DecidableEq, Repr

/-- `Object.values(security).filter(Boolean).length` (src/App.tsx:79,117,181):
the number of enabled security measures. -/
def SecurityMeasures.protectionLevel (s : SecurityMeasures) : ℕ :=
  ([s.fail2ban, s.pfsense, s.cloudflare, s.loadBalancer, s.waf].filter
    (fun b => b)).length

/-- `getProtectionScore` (src/App.tsx:180-183): `(measures / 5) * 100`. -/
def getProtectionScore (s : SecurityMeasures) : ℚ :=
  ((s.protectionLevel : ℚ) / 5) * 100

/-- `baseLoad = attackIntensity * (1 - protectionLevel * 0.15)`
(src/App.tsx:80). -/
def baseLoad (attackIntensity : ℚ) (protectionLevel : ℕ) : ℚ :=
  attackIntensity * (1 - (protectionLevel : ℚ) * (15 / 100))

/-- `randomVariation = Math.random() * 20 - 10` (src/App.tsx:81), with the
draw of `Math.random()` passed in as `r`. -/
def randomVariation (r : ℚ) : ℚ :=
  r * 20 - 10

/-- JavaScript `Math.min` on (finite) numbers: the smaller argument. -/
def jsMin (a b : ℚ) : ℚ :=
  if a ≤ b then a else b

/-- JavaScript `Math.max` on (finite) numbers: the larger argument. -/
def jsMax (a b : ℚ) : ℚ :=
  if a ≤ b then b else a

/-- `value = Math.max(0, Math.min(100, baseLoad + randomVariation))`
(src/App.tsx:82): the clamped sample appended to the history. -/
def tickValue (attackIntensity : ℚ) (protectionLevel : ℕ) (r : ℚ) : ℚ :=
  jsMax 0 (jsMin 100 (baseLoad attackIntensity protectionLevel + randomVariation r))

/-- `setMetrics(prev => [...prev.slice(-30), { timestamp, value }])`
(src/App.tsx:84).  JavaScript `slice(-30)` keeps the last `min 30 length`
elements, which is `List.drop (length - 30)` under truncated subtraction. -/
def updateMetrics (prev : List MetricPoint) (p : MetricPoint) : List MetricPoint :=
  prev.drop (prev.length - 30) ++ [p]

/-- `serverCapacity = (cpu * 10 + ram * 2 + bandwidth / 100) / 3`
(src/App.tsx:87). -/
def serverCapacity (c : ServerConfig) : ℚ :=
  (c.cpu * 10 + c.ram * 2 + c.bandwidth / 100) / 3

/-- `newServerLoad = Math.min(100, (value / serverCapacity) * 100)`
(src/App.tsx:88).  Note the source takes only `min` with 100; there is no
`max` with 0 here. -/
def newServerLoad (c : ServerConfig) (value : ℚ) : ℚ :=
  jsMin 100 ((value / serverCapacity c) * 100)

/-- `totalTraffic = attackIntensity * 2` (src/App.tsx:92). -/
def totalTraffic (attackIntensity : ℚ) : ℚ :=
  attackIntensity * 2

/-- `blockedTraffic = totalTraffic * (protectionLevel * 0.2)`
(src/App.tsx:93). -/
def blockedTraffic (attackIntensity : ℚ) (protectionLevel : ℕ) : ℚ :=
  totalTraffic attackIntensity * ((protectionLevel : ℚ) * (2 / 10))

/-- `setMaliciousTraffic(totalTraffic - blockedTraffic)` (src/App.tsx:94). -/
def maliciousTrafficValue (attackIntensity : ℚ) (protectionLevel : ℕ) : ℚ :=
  totalTraffic attackIntensity - blockedTraffic attackIntensity protectionLevel

/-- `setLegitimateTraffic(50 + Math.random() * 20)` (src/App.tsx:95), with
the draw of `Math.random()` passed in as `r`. -/
def legitimateTrafficValue (r : ℚ) : ℚ :=
  50 + r * 20

/-- The React state of `App` that the metrics effect reads and writes:
`isSimulating`, `metrics`, `serverLoad`, `legitimateTraffic`,
`maliciousTraffic` (src/App.tsx:63-69). -/
structure SimState where
  isSimulating : Bool
  metrics : List MetricPoint
  serverLoad : ℚ
  legitimateTraffic : ℚ
  maliciousTraffic : ℚ
  deriving DecidableEq, Repr

/-- The initial React state: simulation off, empty history, all derived
percentages zero (src/App.tsx:63-69). -/
def initialState : SimState :=
  { isSimulating := false
    metrics := []
    serverLoad := 0
    legitimateTraffic := 0
    maliciousTraffic := 0 }

/-- One firing of the interval callback (src/App.tsx:77-96).  The interval
exists only while `isSimulating` is true (the effect returns before
scheduling otherwise), hence the guard.  `r1` is the draw used for the load
jitter (line 81) and `r2` the draw used for legitimate traffic (line 95);
`ts` is `Date.now()`. -/
def tick (cfg : ServerConfig) (sec : SecurityMeasures) (attackIntensity : ℚ)
    (ts r1 r2 : ℚ) (s : SimState) : SimState :=
  if s.isSimulating then
    let level := sec.protectionLevel
    let value := tickValue attackIntensity level r1
    { s with
      metrics := updateMetrics s.metrics { timestamp := ts, value := value }
      serverLoad := newServerLoad cfg value
      maliciousTraffic := maliciousTrafficValue attackIntensity level
      legitimateTraffic := legitimateTrafficValue r2 }
  else s

/-- Stopping the simulation: `setIsSimulating(false)` via the button
(src/App.tsx:304) makes the metrics effect re-run its `!isSimulating`
branch, which clears the history (`setMetrics([])`, src/App.tsx:73) and
cancels the interval.  No other state is written on this path. -/
def stop (s : SimState) : SimState :=
  { s with isSimulating := false, metrics := [] }

/-- Starting the simulation: `setIsSimulating(true)` (src/App.tsx:304);
the effect then schedules the interval without touching other state. -/
def start (s : SimState) : SimState :=
  { s with isSimulating := true }

/-- Whether the recurring interval timer is scheduled: the metrics effect
holds an active `setInterval` exactly while `isSimulating` is true, and
its cleanup (`clearInterval`, src/App.tsx:98) cancels it on any transition
away.  This covers only the interval; the animation-frame loop is tracked
separately in `AppState.frameLoops`. -/
def timerActive (s : SimState) : Bool :=
  s.isSimulating

/-- Particle kinds: `'attack' | 'legitimate'` (src/App.tsx:108). -/
inductive PType where
  | attack
  | legitimate
  deriving DecidableEq, Repr

/-- One animated traffic particle
(`{x, y, speed, color, type}`, src/App.tsx:108). -/
structure Particle where
  x : ℚ
  y : ℚ
  speed : ℚ
  color : String
  type : PType
  deriving DecidableEq, Repr

/-- `resetParticle` (src/App.tsx:111-129).  `rY`, `rSpeed`, `rType` embed
the three `Math.random()` calls on lines 113-115; `height` is
`canvas.height`; `sec` is the `security` value captured by the effect
closure, read at reset time. -/
def resetParticle (height : ℚ) (sec : SecurityMeasures)
    (forceType : Option PType) (rY rSpeed rType : ℚ) : Particle :=
  let x : ℚ := 0
  let y := rY * height
  let speed := 2 + rSpeed * 3
  let ty := forceType.getD (if rType > 7 / 10 then .legitimate else .attack)
  let level := sec.protectionLevel
  if ty = .legitimate then
    { x := x, y := y, speed := speed, color := "#22c55e", type := ty }
  else if level ≥ 4 then
    { x := x, y := y, speed := speed * (3 / 10), color := "#ef4444", type := ty }
  else if level ≥ 2 then
    { x := x, y := y, speed := speed * (6 / 10), color := "#eab308", type := ty }
  else
    { x := x, y := y, speed := speed, color := "#ef4444", type := ty }

/-- The per-frame update of one particle inside `animate`
(src/App.tsx:163-167): advance `x += speed`, then reset (with no forced
type) exactly when the new `x` exceeds the canvas width. -/
def advanceParticle (width height : ℚ) (sec : SecurityMeasures)
    (rY rSpeed rType : ℚ) (p : Particle) : Particle :=
  let moved : Particle := { p with x := p.x + p.speed }
  if moved.x > width then resetParticle height sec none rY rSpeed rType
  else moved

/-- The simulator state together with the animator's scheduling state:
`frameLoops` counts the `animate` callbacks currently scheduled through
`requestAnimationFrame`.  The source stores no handle for them and
`cancelAnimationFrame` does not occur anywhere in src/App.tsx. -/
structure AppState where
  sim : SimState
  frameLoops : ℕ
  deriving DecidableEq, Repr

/-- Pressing start (src/App.tsx:304) while a drawing surface is
available: `setIsSimulating(true)` re-runs the animator effect
(src/App.tsx:101-173), which builds the particle pool and calls
`animate()`, scheduling one more frame callback (src/App.tsx:170).
Without a surface the effect returns at once (src/App.tsx:102) and
schedules nothing. -/
def startApp (canvas : Bool) (a : AppState) : AppState :=
  { sim := start a.sim
    frameLoops := a.frameLoops + (if canvas then 1 else 0) }

/-- Pressing stop (src/App.tsx:304): the metrics effect cleanup cancels
the interval and its re-run clears the history (src/App.tsx:72-74, 98);
the animator effect cleanup (src/App.tsx:175-177) only empties the
particle array.  `cancelAnimationFrame` is never called, so every
scheduled frame callback stays scheduled. -/
def stopApp (a : AppState) : AppState :=
  { sim := stop a.sim, frameLoops := a.frameLoops }

/-- One firing of a scheduled `animate` callback (src/App.tsx:138-171):
if the drawing surface is gone it returns without re-scheduling
(src/App.tsx:139); otherwise it redraws, advances the pool and
re-schedules itself unconditionally (src/App.tsx:170), regardless of
`isSimulating`. -/
def animateFrame (canvas : Bool) (a : AppState) : AppState :=
  if a.frameLoops = 0 then a
  else if canvas then a
  else { a with frameLoops := a.frameLoops - 1 }

/-- `jsMin` agrees with the order-theoretic minimum. -/
theorem jsMin_eq_min (a b : ℚ) : jsMin a b = min a b := by
  simp [jsMin, min_def]

/-- `jsMax` agrees with the order-theoretic maximum. -/
theorem jsMax_eq_max (a b : ℚ) : jsMax a b = max a b := by
  simp [jsMax, max_def]

/-- The clamped sample is exactly the clamp of `baseLoad + jitter` to
`[0, 100]`. -/
theorem tickValue_eq_clamp (a : ℚ) (l : ℕ) (r : ℚ) :
    tickValue a l r = max 0 (min 100 (baseLoad a l + randomVariation r)) := by
  simp [tickValue, jsMin_eq_min, jsMax_eq_max]

/-- The protection level is the count of true flags among five booleans,
hence at most 5. -/
theorem protectionLevel_le_five (s : SecurityMeasures) : s.protectionLevel ≤ 5 := by
  rcases s with ⟨a, b, c, d, e⟩
  cases a <;> cases b <;> cases c <;> cases d <;> cases e <;> decide

/-- The protection level equals the sum of the flags viewed as 0/1. -/
theorem protectionLevel_eq_sum (s : SecurityMeasures) :
    s.protectionLevel =
      s.fail2ban.toNat + s.pfsense.toNat + s.cloudflare.toNat +
        s.loadBalancer.toNat + s.waf.toNat := by
  rcases s with ⟨a, b, c, d, e⟩
  cases a <;> cases b <;> cases c <;> cases d <;> cases e <;> decide

/-- With all configuration sliders at or above their minimum of 1, the
capacity denominator is strictly positive. -/
theorem serverCapacity_pos (c : ServerConfig)
    (hcpu : 1 ≤ c.cpu) (hram : 1 ≤ c.ram) (hbw : 1 ≤ c.bandwidth) :
    0 < serverCapacity c := by
  have h : (0 : ℚ) < c.cpu * 10 + c.ram * 2 + c.bandwidth / 100 := by linarith
  exact div_pos h (by norm_num)

/-- The clamped sample is nonnegative. -/
theorem tickValue_nonneg (a : ℚ) (l : ℕ) (r : ℚ) : 0 ≤ tickValue a l r := by
  rw [tickValue_eq_clamp]
  exact le_max_left _ _

/-- The clamped sample is at most 100. -/
theorem tickValue_le_100 (a : ℚ) (l : ℕ) (r : ℚ) : tickValue a l r ≤ 100 := by
  rw [tickValue_eq_clamp]
  exact max_le (by norm_num) (min_le_left _ _)

/-- Claim C4: for every assignment of the five security flags, the
protection score is `(count of true flags / 5) * 100`, and the protection
level is the raw count, bounded by `[0, 5]`.  Both `getProtectionScore` and
`SecurityMeasures.protectionLevel` are plain total Lean functions of the
flag record, so purity and totality hold by construction. -/
theorem C4_protection_scorer (s : SecurityMeasures) :
    getProtectionScore s =
      ((s.fail2ban.toNat + s.pfsense.toNat + s.cloudflare.toNat +
          s.loadBalancer.toNat + s.waf.toNat : ℕ) : ℚ) / 5 * 100 ∧
    s.protectionLevel =
      s.fail2ban.toNat + s.pfsense.toNat + s.cloudflare.toNat +
        s.loadBalancer.toNat + s.waf.toNat ∧
    s.protectionLevel ≤ 5 := by
  refine ⟨?_, protectionLevel_eq_sum s, protectionLevel_le_five s⟩
  rw [getProtectionScore, protectionLevel_eq_sum s]

/-- Claim C9: within the declared configuration minimums (`cpu ≥ 1`,
`ramGb ≥ 1`, `bandwidthMbps ≥ 1`), the server capacity is strictly
positive, so the division in `newServerLoad` has a nonzero denominator. -/
theorem C9_capacity_positive (c : ServerConfig)
    (hcpu : 1 ≤ c.cpu) (hram : 1 ≤ c.ram) (hbw : 1 ≤ c.bandwidth) :
    0 < serverCapacity c ∧ serverCapacity c ≠ 0 := by
  have h := serverCapacity_pos c hcpu hram hbw
  exact ⟨h, ne_of_gt h⟩

/-- Witness for C9 at the default configuration `cpu=4, ram=16,
bandwidth=1000, storage=500`. -/
theorem C9_capacity_positive_witness :
    0 < serverCapacity ⟨4, 16, 1000, 500⟩ ∧ serverCapacity ⟨4, 16, 1000, 500⟩ ≠ 0 :=
  C9_capacity_positive ⟨4, 16, 1000, 500⟩ (by norm_num) (by norm_num) (by norm_num)

/-- Claim C10, evaluated at the failing input: start with a drawing
surface available, then stop.  Stopping twice does equal stopping once,
and after the stop the engine is Idle with empty history and no interval
timer; but one animation-frame callback remains scheduled, and running it
re-schedules it, so the frame loop persists after stop.  The code
violates the claim's "no timer or animation frame remains scheduled":
`animate` re-schedules itself unconditionally (src/App.tsx:170) and
`cancelAnimationFrame` is never called. -/
theorem C10_frame_loop_persists :
    stopApp (stopApp (startApp true ⟨initialState, 0⟩))
      = stopApp (startApp true ⟨initialState, 0⟩) ∧
    (stopApp (startApp true ⟨initialState, 0⟩)).sim.isSimulating = false ∧
    (stopApp (startApp true ⟨initialState, 0⟩)).sim.metrics = [] ∧
    timerActive (stopApp (startApp true ⟨initialState, 0⟩)).sim = false ∧
    (stopApp (startApp true ⟨initialState, 0⟩)).frameLoops = 1 ∧
    (animateFrame true
      (stopApp (startApp true ⟨initialState, 0⟩))).frameLoops = 1 :=
  ⟨rfl, rfl, rfl, rfl, rfl, rfl⟩

/-- Counterexample to claim C2 as stated: a state reachable while Running
(one tick at full intensity, no protection, from the initial state) in
which stopping leaves all three derived percentages at their last computed
values — 100, 60 and 200 — rather than resetting them to zero. -/
theorem C2_counterexample :
    (stop (tick ⟨4, 16, 1000, 500⟩ ⟨false, false, false, false, false⟩ 100 0
        (1 / 2) (1 / 2) (start initialState))).serverLoad = 100 ∧
    ¬ (stop (tick ⟨4, 16, 1000, 500⟩ ⟨false, false, false, false, false⟩ 100 0
        (1 / 2) (1 / 2) (start initialState))).serverLoad = 0 ∧
    ¬ (stop (tick ⟨4, 16, 1000, 500⟩ ⟨false, false, false, false, false⟩ 100 0
        (1 / 2) (1 / 2) (start initialState))).legitimateTraffic = 0 ∧
    ¬ (stop (tick ⟨4, 16, 1000, 500⟩ ⟨false, false, false, false, false⟩ 100 0
        (1 / 2) (1 / 2) (start initialState))).maliciousTraffic = 0 := by
  norm_num [stop, tick, start, initialState, tickValue, jsMin, jsMax, baseLoad,
    randomVariation, newServerLoad, serverCapacity, maliciousTrafficValue,
    legitimateTrafficValue, totalTraffic, blockedTraffic, updateMetrics,
    SecurityMeasures.protectionLevel]

/-- Claim C2 as amended: the stop transition clears MetricHistory to the
empty sequence and makes the engine Idle, but it leaves
`serverLoadPercent`, `legitimateTrafficPercent` and
`maliciousTrafficPercent` unchanged at their last computed values; they are
not reset to zero. -/
theorem C2_stop_clears_history (s : SimState) :
    (stop s).metrics = [] ∧
    (stop s).isSimulating = false ∧
    (stop s).serverLoad = s.serverLoad ∧
    (stop s).legitimateTraffic = s.legitimateTraffic ∧
    (stop s).maliciousTraffic = s.maliciousTraffic :=
  ⟨rfl, rfl, rfl, rfl, rfl⟩

/-- Counterexample to claim C1 as stated: on a tick executed while Running
with `attackIntensity = 100` (inside `[0,100]`) and no security measure
enabled, the computed `maliciousTrafficPercent` is 200, outside `[0,100]`. -/
theorem C1_counterexample :
    (tick ⟨4, 16, 1000, 500⟩ ⟨false, false, false, false, false⟩ 100 0
        (1 / 2) (1 / 2) (start initialState)).maliciousTraffic = 200 ∧
    ¬ (tick ⟨4, 16, 1000, 500⟩ ⟨false, false, false, false, false⟩ 100 0
        (1 / 2) (1 / 2) (start initialState)).maliciousTraffic ≤ 100 := by
  norm_num [tick, start, initialState, maliciousTrafficValue, totalTraffic,
    blockedTraffic, SecurityMeasures.protectionLevel]

/-- Claim C1 as amended: on every tick executed while Running, with the
configuration at or above its declared minimums, `attackIntensity` in
`[0,100]` and both random draws in `[0,1)`, the appended sample value, the
server-load percentage and the legitimate-traffic percentage lie in
`[0,100]`; the malicious-traffic percentage, however, is not clamped and
lies in `[0,200]` (it equals `attackIntensity * 2 * (1 - 0.2 *
protectionLevel)` and reaches 200 at full intensity with no protection). -/
theorem C1_tick_ranges (cfg : ServerConfig) (sec : SecurityMeasures)
    (atk ts r1 r2 : ℚ) (s s2 : SimState)
    (hs : s.isSimulating = true)
    (hs2 : s2 = tick cfg sec atk ts r1 r2 s)
    (hcpu : 1 ≤ cfg.cpu) (hram : 1 ≤ cfg.ram) (hbw : 1 ≤ cfg.bandwidth)
    (hatk0 : 0 ≤ atk) (hatk1 : atk ≤ 100)
    (hr20 : 0 ≤ r2) (hr21 : r2 < 1) :
    s2.metrics = updateMetrics s.metrics
      { timestamp := ts, value := tickValue atk sec.protectionLevel r1 } ∧
    (0 ≤ tickValue atk sec.protectionLevel r1 ∧
      tickValue atk sec.protectionLevel r1 ≤ 100) ∧
    (0 ≤ s2.serverLoad ∧ s2.serverLoad ≤ 100) ∧
    (0 ≤ s2.legitimateTraffic ∧ s2.legitimateTraffic ≤ 100) ∧
    (0 ≤ s2.maliciousTraffic ∧ s2.maliciousTraffic ≤ 200) := by
  subst hs2
  have hlev : (sec.protectionLevel : ℚ) ≤ 5 := by
    exact_mod_cast protectionLevel_le_five sec
  have hlev0 : (0 : ℚ) ≤ (sec.protectionLevel : ℚ) := by positivity
  have hcap : 0 < serverCapacity cfg := serverCapacity_pos cfg hcpu hram hbw
  have hv0 := tickValue_nonneg atk sec.protectionLevel r1
  have hv1 := tickValue_le_100 atk sec.protectionLevel r1
  have hmet : (tick cfg sec atk ts r1 r2 s).metrics =
      updateMetrics s.metrics
        { timestamp := ts, value := tickValue atk sec.protectionLevel r1 } := by
    simp [tick, hs]
  have hload : (tick cfg sec atk ts r1 r2 s).serverLoad =
      newServerLoad cfg (tickValue atk sec.protectionLevel r1) := by
    simp [tick, hs]
  have hleg : (tick cfg sec atk ts r1 r2 s).legitimateTraffic =
      legitimateTrafficValue r2 := by
    simp [tick, hs]
  have hmal : (tick cfg sec atk ts r1 r2 s).maliciousTraffic =
      maliciousTrafficValue atk sec.protectionLevel := by
    simp [tick, hs]
  rw [hmet, hload, hleg, hmal]
  refine ⟨rfl, ⟨hv0, hv1⟩, ⟨?_, ?_⟩, ⟨?_, ?_⟩, ⟨?_, ?_⟩⟩
  · rw [newServerLoad, jsMin_eq_min]
    exact le_min (by norm_num) (by positivity)
  · rw [newServerLoad, jsMin_eq_min]
    exact min_le_left _ _
  · rw [legitimateTrafficValue]; linarith
  · rw [legitimateTrafficValue]; linarith
  · rw [maliciousTrafficValue, totalTraffic, blockedTraffic, totalTraffic]
    nlinarith
  · rw [maliciousTrafficValue, totalTraffic, blockedTraffic, totalTraffic]
    nlinarith

/-- Witness for C1 as amended, at the default configuration, half
intensity, no measures, both draws `1/2`, one tick after start. -/
theorem C1_tick_ranges_witness :
    (tick ⟨4, 16, 1000, 500⟩ ⟨false, false, false, false, false⟩ 50 0
        (1 / 2) (1 / 2) (start initialState)).metrics =
      updateMetrics (start initialState).metrics
        { timestamp := 0,
          value := tickValue 50
            (SecurityMeasures.protectionLevel
              ⟨false, false, false, false, false⟩) (1 / 2) } ∧
    (0 ≤ tickValue 50
        (SecurityMeasures.protectionLevel ⟨false, false, false, false, false⟩)
        (1 / 2) ∧
      tickValue 50
        (SecurityMeasures.protectionLevel ⟨false, false, false, false, false⟩)
        (1 / 2) ≤ 100) ∧
    (0 ≤ (tick ⟨4, 16, 1000, 500⟩ ⟨false, false, false, false, false⟩ 50 0
        (1 / 2) (1 / 2) (start initialState)).serverLoad ∧
      (tick ⟨4, 16, 1000, 500⟩ ⟨false, false, false, false, false⟩ 50 0
        (1 / 2) (1 / 2) (start initialState)).serverLoad ≤ 100) ∧
    (0 ≤ (tick ⟨4, 16, 1000, 500⟩ ⟨false, false, false, false, false⟩ 50 0
        (1 / 2) (1 / 2) (start initialState)).legitimateTraffic ∧
      (tick ⟨4, 16, 1000, 500⟩ ⟨false, false, false, false, false⟩ 50 0
        (1 / 2) (1 / 2) (start initialState)).legitimateTraffic ≤ 100) ∧
    (0 ≤ (tick ⟨4, 16, 1000, 500⟩ ⟨false, false, false, false, false⟩ 50 0
        (1 / 2) (1 / 2) (start initialState)).maliciousTraffic ∧
      (tick ⟨4, 16, 1000, 500⟩ ⟨false, false, false, false, false⟩ 50 0
        (1 / 2) (1 / 2) (start initialState)).maliciousTraffic ≤ 200) :=
  C1_tick_ranges ⟨4, 16, 1000, 500⟩ ⟨false, false, false, false, false⟩
    50 0 (1 / 2) (1 / 2) (start initialState) _ rfl rfl
    (by norm_num) (by norm_num) (by norm_num)
    (by norm_num) (by norm_num) (by norm_num) (by norm_num)

/-- Claim C3: on every tick while Running, the malicious traffic equals
`totalTraffic - blockedTraffic` with `totalTraffic = attackIntensity * 2`
and `blockedTraffic = totalTraffic * (protectionLevel * 0.2)`, and the
legitimate traffic equals `50` plus a draw `r2 * 20` lying in `[0, 20]`,
the same value for every attack intensity and every security assignment. -/
theorem C3_traffic_split (cfg : ServerConfig) (sec : SecurityMeasures)
    (atk ts r1 r2 : ℚ) (s : SimState)
    (hs : s.isSimulating = true) (hr20 : 0 ≤ r2) (hr21 : r2 < 1) :
    (tick cfg sec atk ts r1 r2 s).maliciousTraffic
      = totalTraffic atk - blockedTraffic atk sec.protectionLevel ∧
    totalTraffic atk = atk * 2 ∧
    blockedTraffic atk sec.protectionLevel
      = totalTraffic atk * ((sec.protectionLevel : ℚ) * (2 / 10)) ∧
    (tick cfg sec atk ts r1 r2 s).legitimateTraffic = 50 + r2 * 20 ∧
    (0 ≤ r2 * 20 ∧ r2 * 20 ≤ 20) ∧
    (∀ atk2 : ℚ, ∀ sec2 : SecurityMeasures,
      (tick cfg sec2 atk2 ts r1 r2 s).legitimateTraffic
        = (tick cfg sec atk ts r1 r2 s).legitimateTraffic) := by
  refine ⟨by simp [tick, hs, maliciousTrafficValue], rfl, rfl,
    by simp [tick, hs, legitimateTrafficValue, mul_comm],
    ⟨by positivity, by linarith⟩, fun atk2 sec2 => by simp [tick, hs]⟩

/-- Witness for C3 at the default configuration, intensity 50, no
measures, both draws `1/2`, one tick after start. -/
theorem C3_traffic_split_witness :
    (tick ⟨4, 16, 1000, 500⟩ ⟨false, false, false, false, false⟩ 50 0
        (1 / 2) (1 / 2) (start initialState)).maliciousTraffic
      = totalTraffic 50 -
          blockedTraffic 50
            (SecurityMeasures.protectionLevel
              ⟨false, false, false, false, false⟩) ∧
    totalTraffic 50 = 50 * 2 ∧
    blockedTraffic 50
        (SecurityMeasures.protectionLevel ⟨false, false, false, false, false⟩)
      = totalTraffic 50 *
          (((SecurityMeasures.protectionLevel
              ⟨false, false, false, false, false⟩ : ℕ) : ℚ) * (2 / 10)) ∧
    (tick ⟨4, 16, 1000, 500⟩ ⟨false, false, false, false, false⟩ 50 0
        (1 / 2) (1 / 2) (start initialState)).legitimateTraffic
      = 50 + (1 / 2) * 20 ∧
    (0 ≤ (1 / 2 : ℚ) * 20 ∧ (1 / 2 : ℚ) * 20 ≤ 20) ∧
    (∀ atk2 : ℚ, ∀ sec2 : SecurityMeasures,
      (tick ⟨4, 16, 1000, 500⟩ sec2 atk2 0 (1 / 2) (1 / 2)
          (start initialState)).legitimateTraffic
        = (tick ⟨4, 16, 1000, 500⟩ ⟨false, false, false, false, false⟩ 50 0
            (1 / 2) (1 / 2) (start initialState)).legitimateTraffic) :=
  C3_traffic_split ⟨4, 16, 1000, 500⟩ ⟨false, false, false, false, false⟩
    50 0 (1 / 2) (1 / 2) (start initialState) rfl (by norm_num) (by norm_num)

/-- Claim C5: on every tick, the base load is
`attackIntensity * (1 - protectionLevel * 0.15)` and the recorded sample is
the clamp of `baseLoad + jitter` to `[0, 100]`, where the jitter
`r * 20 - 10` lies in `[-10, 10]` for a draw `r` in `[0, 1)`; with all
five flags true and intensity 100 the base load is 25, and with no flags
and intensity 50 it is 50. -/
theorem C5_base_load_sample (atk : ℚ) (sec : SecurityMeasures) (r : ℚ)
    (hr0 : 0 ≤ r) (hr1 : r < 1) :
    tickValue atk sec.protectionLevel r
      = max 0 (min 100 (baseLoad atk sec.protectionLevel + randomVariation r)) ∧
    baseLoad atk sec.protectionLevel
      = atk * (1 - (sec.protectionLevel : ℚ) * (15 / 100)) ∧
    (-10 ≤ randomVariation r ∧ randomVariation r ≤ 10) ∧
    baseLoad 100
      (SecurityMeasures.protectionLevel ⟨true, true, true, true, true⟩) = 25 ∧
    baseLoad 50
      (SecurityMeasures.protectionLevel
        ⟨false, false, false, false, false⟩) = 50 := by
  refine ⟨tickValue_eq_clamp _ _ _, rfl, ⟨?_, ?_⟩, ?_, ?_⟩
  · rw [randomVariation]; linarith
  · rw [randomVariation]; linarith
  · norm_num [baseLoad, SecurityMeasures.protectionLevel]
  · norm_num [baseLoad, SecurityMeasures.protectionLevel]

/-- Witness for C5 with intensity 100, all measures on, draw `1/2`. -/
theorem C5_base_load_sample_witness :
    tickValue 100
        (SecurityMeasures.protectionLevel ⟨true, true, true, true, true⟩)
        (1 / 2)
      = max 0 (min 100
          (baseLoad 100
              (SecurityMeasures.protectionLevel ⟨true, true, true, true, true⟩)
            + randomVariation (1 / 2))) ∧
    baseLoad 100
        (SecurityMeasures.protectionLevel ⟨true, true, true, true, true⟩)
      = 100 * (1 -
          ((SecurityMeasures.protectionLevel
              ⟨true, true, true, true, true⟩ : ℕ) : ℚ) * (15 / 100)) ∧
    (-10 ≤ randomVariation (1 / 2) ∧ randomVariation (1 / 2) ≤ 10) ∧
    baseLoad 100
      (SecurityMeasures.protectionLevel ⟨true, true, true, true, true⟩) = 25 ∧
    baseLoad 50
      (SecurityMeasures.protectionLevel
        ⟨false, false, false, false, false⟩) = 50 :=
  C5_base_load_sample 100 ⟨true, true, true, true, true⟩ (1 / 2)
    (by norm_num) (by norm_num)

/-- Claim C6: the server capacity is
`(cpu * 10 + ram * 2 + bandwidth / 100) / 3`, and for a nonnegative sample
and a configuration at or above its minimums the computed server load
equals the clamp of `sample / serverCapacity * 100` to `[0, 100]` (the
source only takes `min` with 100, but the quotient is already
nonnegative); the default configuration `cpu=4, ram=16, bandwidth=1000`
yields capacity `82/3`. -/
theorem C6_server_capacity_load (c : ServerConfig) (value : ℚ)
    (hv : 0 ≤ value)
    (hcpu : 1 ≤ c.cpu) (hram : 1 ≤ c.ram) (hbw : 1 ≤ c.bandwidth) :
    serverCapacity c = (c.cpu * 10 + c.ram * 2 + c.bandwidth / 100) / 3 ∧
    newServerLoad c value = max 0 (min 100 (value / serverCapacity c * 100)) ∧
    serverCapacity ⟨4, 16, 1000, 500⟩ = 82 / 3 := by
  have hcap := serverCapacity_pos c hcpu hram hbw
  have h0 : (0 : ℚ) ≤ min 100 (value / serverCapacity c * 100) :=
    le_min (by norm_num) (by positivity)
  refine ⟨rfl, ?_, by norm_num [serverCapacity]⟩
  rw [newServerLoad, jsMin_eq_min, max_eq_right h0]

/-- Witness for C6 at the default configuration with sample 50. -/
theorem C6_server_capacity_load_witness :
    serverCapacity ⟨4, 16, 1000, 500⟩
      = ((4 : ℚ) * 10 + 16 * 2 + 1000 / 100) / 3 ∧
    newServerLoad ⟨4, 16, 1000, 500⟩ 50
      = max 0 (min 100 (50 / serverCapacity ⟨4, 16, 1000, 500⟩ * 100)) ∧
    serverCapacity ⟨4, 16, 1000, 500⟩ = 82 / 3 :=
  C6_server_capacity_load ⟨4, 16, 1000, 500⟩ 50
    (by norm_num) (by norm_num) (by norm_num) (by norm_num)

/-- Claim C7: each tick's history update appends exactly one point (the
new point is the last element), the resulting length is
`min (previous length) 30 + 1`, hence never above 31, and the update only
drops the oldest entries: the new history is literally a drop of
`previous ++ [new point]`, hence a suffix of it, preserving the relative
order of the retained most-recent points.  The history starts empty, so
every Running state built from these updates obeys the bound. -/
theorem C7_history_window (l : List MetricPoint) (p : MetricPoint) :
    updateMetrics l p = l.drop (l.length - 30) ++ [p] ∧
    (updateMetrics l p).length = min l.length 30 + 1 ∧
    (updateMetrics l p).length ≤ 31 ∧
    (updateMetrics l p).getLast? = some p ∧
    updateMetrics l p = (l ++ [p]).drop (l.length + 1 - 31) ∧
    (l ++ [p]).drop (l.length + 1 - 31) <:+ l ++ [p] ∧
    initialState.metrics = [] := by
  have hlen : (updateMetrics l p).length = min l.length 30 + 1 := by
    simp [updateMetrics]
    omega
  have hk : l.length + 1 - 31 = l.length - 30 := by omega
  have hdrop : (l ++ [p]).drop (l.length + 1 - 31) = updateMetrics l p := by
    rw [hk, List.drop_append_of_le_length (by omega), updateMetrics]
  refine ⟨rfl, hlen, by omega, ?_, hdrop.symm, List.drop_suffix _ _, rfl⟩
  rw [updateMetrics]
  exact List.getLast?_concat _

/-- A reset that draws (or is forced to) kind `legitimate` yields a green
particle at `x = 0` with the unmodified base speed. -/
theorem resetParticle_legit_eq (height : ℚ) (sec : SecurityMeasures)
    (ft : Option PType) (rY rSpeed rType : ℚ)
    (h : ft.getD (if rType > 7 / 10 then PType.legitimate else PType.attack)
      = PType.legitimate) :
    resetParticle height sec ft rY rSpeed rType =
      { x := 0, y := rY * height, speed := 2 + rSpeed * 3,
        color := "#22c55e", type := PType.legitimate } := by
  simp [resetParticle, h]

/-- A reset that draws kind `attack` while at least four measures are
enabled yields a red particle with speed scaled by `0.3`. -/
theorem resetParticle_attack_high_eq (height : ℚ) (sec : SecurityMeasures)
    (ft : Option PType) (rY rSpeed rType : ℚ)
    (h : ft.getD (if rType > 7 / 10 then PType.legitimate else PType.attack)
      = PType.attack)
    (hl : 4 ≤ sec.protectionLevel) :
    resetParticle height sec ft rY rSpeed rType =
      { x := 0, y := rY * height, speed := (2 + rSpeed * 3) * (3 / 10),
        color := "#ef4444", type := PType.attack } := by
  simp [resetParticle, h, hl]

/-- A reset that draws kind `attack` with two or three measures enabled
yields a yellow particle with speed scaled by `0.6`. -/
theorem resetParticle_attack_mid_eq (height : ℚ) (sec : SecurityMeasures)
    (ft : Option PType) (rY rSpeed rType : ℚ)
    (h : ft.getD (if rType > 7 / 10 then PType.legitimate else PType.attack)
      = PType.attack)
    (hl2 : 2 ≤ sec.protectionLevel) (hl4 : ¬ 4 ≤ sec.protectionLevel) :
    resetParticle height sec ft rY rSpeed rType =
      { x := 0, y := rY * height, speed := (2 + rSpeed * 3) * (6 / 10),
        color := "#eab308", type := PType.attack } := by
  simp [resetParticle, h, hl2, hl4]

/-- A reset that draws kind `attack` with fewer than two measures enabled
yields a red particle at the unmodified base speed. -/
theorem resetParticle_attack_low_eq (height : ℚ) (sec : SecurityMeasures)
    (ft : Option PType) (rY rSpeed rType : ℚ)
    (h : ft.getD (if rType > 7 / 10 then PType.legitimate else PType.attack)
      = PType.attack)
    (hl2 : ¬ 2 ≤ sec.protectionLevel) :
    resetParticle height sec ft rY rSpeed rType =
      { x := 0, y := rY * height, speed := 2 + rSpeed * 3,
        color := "#ef4444", type := PType.attack } := by
  have hl4 : ¬ 4 ≤ sec.protectionLevel := fun hh => hl2 (by omega)
  simp [resetParticle, h, hl2, hl4]

/-- Claim C8: every particle reset puts the particle at `x = 0`, `y` drawn
in `[0, height]`, base speed drawn in `[2, 5]`, then assigns colour and a
speed multiplier by kind and by the protection level read at reset time:
legitimate is green at full speed; attack with level `≥ 4` is red at `0.3`
times the draw; attack with level in `[2, 4)` is yellow at `0.6` times the
draw; attack with level `< 2` is red at full speed.  A frame step that
does not trigger a reset (the advanced `x` stays within the width) leaves
colour, speed and kind untouched, whatever security value the frame reads,
so protection changes do not alter a particle until its next reset. -/
theorem C8_reset_particle (height : ℚ) (sec : SecurityMeasures)
    (forceType : Option PType) (rY rSpeed rType : ℚ) (pr : Particle)
    (hpr : pr = resetParticle height sec forceType rY rSpeed rType)
    (hY0 : 0 ≤ rY) (hY1 : rY < 1) (hS0 : 0 ≤ rSpeed) (hS1 : rSpeed < 1)
    (hh : 0 ≤ height) :
    pr.x = 0 ∧
    (pr.y = rY * height ∧ 0 ≤ pr.y ∧ pr.y ≤ height) ∧
    (2 ≤ 2 + rSpeed * 3 ∧ 2 + rSpeed * 3 ≤ 5) ∧
    (pr.type = PType.legitimate →
      pr.color = "#22c55e" ∧ pr.speed = 2 + rSpeed * 3) ∧
    (pr.type = PType.attack → 4 ≤ sec.protectionLevel →
      pr.color = "#ef4444" ∧ pr.speed = (2 + rSpeed * 3) * (3 / 10)) ∧
    (pr.type = PType.attack → 2 ≤ sec.protectionLevel →
      sec.protectionLevel < 4 →
      pr.color = "#eab308" ∧ pr.speed = (2 + rSpeed * 3) * (6 / 10)) ∧
    (pr.type = PType.attack → sec.protectionLevel < 2 →
      pr.color = "#ef4444" ∧ pr.speed = 2 + rSpeed * 3) ∧
    (∀ (width : ℚ) (sec2 : SecurityMeasures) (a b c : ℚ) (q : Particle),
      q.x + q.speed ≤ width →
        (advanceParticle width height sec2 a b c q).color = q.color ∧
        (advanceParticle width height sec2 a b c q).speed = q.speed ∧
        (advanceParticle width height sec2 a b c q).type = q.type) := by
  have hadv : ∀ (width : ℚ) (sec2 : SecurityMeasures) (a b c : ℚ)
      (q : Particle), q.x + q.speed ≤ width →
        (advanceParticle width height sec2 a b c q).color = q.color ∧
        (advanceParticle width height sec2 a b c q).speed = q.speed ∧
        (advanceParticle width height sec2 a b c q).type = q.type := by
    intro width sec2 a b c q hq
    simp only [advanceParticle]
    rw [if_neg (not_lt.mpr hq)]
    exact ⟨rfl, rfl, rfl⟩
  have hsp0 : (2 : ℚ) ≤ 2 + rSpeed * 3 := by linarith
  have hsp1 : 2 + rSpeed * 3 ≤ 5 := by linarith
  have hy0 : 0 ≤ rY * height := mul_nonneg hY0 hh
  have hy1 : rY * height ≤ height := by nlinarith
  subst hpr
  by_cases hty : forceType.getD
      (if rType > 7 / 10 then PType.legitimate else PType.attack)
      = PType.legitimate
  · rw [resetParticle_legit_eq height sec forceType rY rSpeed rType hty]
    exact ⟨rfl, ⟨rfl, hy0, hy1⟩, ⟨hsp0, hsp1⟩, fun _ => ⟨rfl, rfl⟩,
      fun h => PType.noConfusion h, fun h => PType.noConfusion h,
      fun h => PType.noConfusion h, hadv⟩
  · have hat : forceType.getD
        (if rType > 7 / 10 then PType.legitimate else PType.attack)
        = PType.attack := by
      cases hgd : forceType.getD
          (if rType > 7 / 10 then PType.legitimate else PType.attack) with
      | attack => rfl
      | legitimate => exact absurd hgd hty
    by_cases hl4 : 4 ≤ sec.protectionLevel
    · rw [resetParticle_attack_high_eq height sec forceType rY rSpeed rType
        hat hl4]
      exact ⟨rfl, ⟨rfl, hy0, hy1⟩, ⟨hsp0, hsp1⟩,
        fun h => PType.noConfusion h, fun _ _ => ⟨rfl, rfl⟩,
        fun _ _ h4 => absurd hl4 (by omega),
        fun _ h2 => absurd hl4 (by omega), hadv⟩
    · by_cases hl2 : 2 ≤ sec.protectionLevel
      · rw [resetParticle_attack_mid_eq height sec forceType rY rSpeed rType
          hat hl2 hl4]
        exact ⟨rfl, ⟨rfl, hy0, hy1⟩, ⟨hsp0, hsp1⟩,
          fun h => PType.noConfusion h, fun _ h4 => absurd h4 hl4,
          fun _ _ _ => ⟨rfl, rfl⟩,
          fun _ hlow => absurd hl2 (by omega), hadv⟩
      · rw [resetParticle_attack_low_eq height sec forceType rY rSpeed rType
          hat hl2]
        exact ⟨rfl, ⟨rfl, hy0, hy1⟩, ⟨hsp0, hsp1⟩,
          fun h => PType.noConfusion h,
          fun _ h4 => absurd h4 (fun hh => hl2 (by omega)),
          fun _ h2 _ => absurd h2 hl2,
          fun _ _ => ⟨rfl, rfl⟩, hadv⟩

/-- Witness for C8: a forced attack particle reset at height 300 with all
five measures enabled and all three draws `1/2`. -/
theorem C8_reset_particle_witness :
    (resetParticle 300 ⟨true, true, true, true, true⟩ (some PType.attack)
        (1 / 2) (1 / 2) (1 / 2)).x = 0 ∧
    ((resetParticle 300 ⟨true, true, true, true, true⟩ (some PType.attack)
        (1 / 2) (1 / 2) (1 / 2)).y = (1 / 2) * 300 ∧
      0 ≤ (resetParticle 300 ⟨true, true, true, true, true⟩ (some PType.attack)
        (1 / 2) (1 / 2) (1 / 2)).y ∧
      (resetParticle 300 ⟨true, true, true, true, true⟩ (some PType.attack)
        (1 / 2) (1 / 2) (1 / 2)).y ≤ 300) ∧
    ((2 : ℚ) ≤ 2 + (1 / 2) * 3 ∧ (2 : ℚ) + (1 / 2) * 3 ≤ 5) ∧
    ((resetParticle 300 ⟨true, true, true, true, true⟩ (some PType.attack)
        (1 / 2) (1 / 2) (1 / 2)).type = PType.legitimate →
      (resetParticle 300 ⟨true, true, true, true, true⟩ (some PType.attack)
        (1 / 2) (1 / 2) (1 / 2)).color = "#22c55e" ∧
      (resetParticle 300 ⟨true, true, true, true, true⟩ (some PType.attack)
        (1 / 2) (1 / 2) (1 / 2)).speed = 2 + (1 / 2) * 3) ∧
    ((resetParticle 300 ⟨true, true, true, true, true⟩ (some PType.attack)
        (1 / 2) (1 / 2) (1 / 2)).type = PType.attack →
      4 ≤ SecurityMeasures.protectionLevel ⟨true, true, true, true, true⟩ →
      (resetParticle 300 ⟨true, true, true, true, true⟩ (some PType.attack)
        (1 / 2) (1 / 2) (1 / 2)).color = "#ef4444" ∧
      (resetParticle 300 ⟨true, true, true, true, true⟩ (some PType.attack)
        (1 / 2) (1 / 2) (1 / 2)).speed = (2 + (1 / 2) * 3) * (3 / 10)) ∧
    ((resetParticle 300 ⟨true, true, true, true, true⟩ (some PType.attack)
        (1 / 2) (1 / 2) (1 / 2)).type = PType.attack →
      2 ≤ SecurityMeasures.protectionLevel ⟨true, true, true, true, true⟩ →
      SecurityMeasures.protectionLevel ⟨true, true, true, true, true⟩ < 4 →
      (resetParticle 300 ⟨true, true, true, true, true⟩ (some PType.attack)
        (1 / 2) (1 / 2) (1 / 2)).color = "#eab308" ∧
      (resetParticle 300 ⟨true, true, true, true, true⟩ (some PType.attack)
        (1 / 2) (1 / 2) (1 / 2)).speed = (2 + (1 / 2) * 3) * (6 / 10)) ∧
    ((resetParticle 300 ⟨true, true, true, true, true⟩ (some PType.attack)
        (1 / 2) (1 / 2) (1 / 2)).type = PType.attack →
      SecurityMeasures.protectionLevel ⟨true, true, true, true, true⟩ < 2 →
      (resetParticle 300 ⟨true, true, true, true, true⟩ (some PType.attack)
        (1 / 2) (1 / 2) (1 / 2)).color = "#ef4444" ∧
      (resetParticle 300 ⟨true, true, true, true, true⟩ (some PType.attack)
        (1 / 2) (1 / 2) (1 / 2)).speed = 2 + (1 / 2) * 3) ∧
    (∀ (width : ℚ) (sec2 : SecurityMeasures) (a b c : ℚ) (q : Particle),
      q.x + q.speed ≤ width →
        (advanceParticle width 300 sec2 a b c q).color = q.color ∧
        (advanceParticle width 300 sec2 a b c q).speed = q.speed ∧
        (advanceParticle width 300 sec2 a b c q).type = q.type) :=
  C8_reset_particle 300 ⟨true, true, true, true, true⟩ (some PType.attack)
    (1 / 2) (1 / 2) (1 / 2) _ rfl
    (by norm_num) (by norm_num) (by norm_num) (by norm_num) (by norm_num)

end Simulateur
